import Mathlib

/-!
Verification of the Commitlabs commitment-core contract
(`src/contracts/commitment_core/src/lib.rs`).

The contract is shallowly embedded: soroban storage becomes an explicit
`State` record of association lists (one per `DataKey` variant), a panic
becomes `Except.error` (the host rolls the whole invocation back, so an
error carries no new state), `i128` values become `Int`, `u64` timestamps
and addresses become `Nat`, and soroban `String` becomes Lean `String`.
The external asset-transfer capability is modelled by its only observable
behaviour inside this contract: `transfer_asset` fails with `InvalidAmount`
when `amount ≤ 0` and otherwise succeeds (the spec assumes the external
transfer is atomic and out of scope).

The Rust file contains, for several entry points, both an implemented
version and a later TODO stub of the same name (`initialize`,
`get_commitment`, `allocate`).  The implemented versions are embedded for
those; `create_commitment`, `update_value`, `check_violations`, `settle`
and `early_exit` exist only as stubs in the source and are embedded
exactly as the stubs behave.
-/

/-- `CommitmentRules` struct (lib.rs lines 11-17). -/
structure CommitmentRules where
  duration_days : Nat
  max_loss_percent : Nat
  commitment_type : String
  early_exit_penalty : Nat
  min_fee_threshold : Int
deriving Repr, DecidableEq

/-- `Commitment` struct (lib.rs lines 21-32). -/
structure Commitment where
  commitment_id : String
  owner : Nat
  nft_token_id : Nat
  rules : CommitmentRules
  amount : Int
  asset_address : Nat
  created_at : Nat
  expires_at : Nat
  current_value : Int
  status : String
deriving Repr, DecidableEq

/-- `Allocation` struct (lib.rs lines 36-41). -/
structure Allocation where
  commitment_id : String
  target_pool : Nat
  amount : Int
  timestamp : Nat
deriving Repr, DecidableEq

/-- `AllocationTracking` struct (lib.rs lines 45-48). -/
structure AllocationTracking where
  total_allocated : Int
  allocations : List Allocation
deriving Repr, DecidableEq

/-- The contract's error conditions (the `panic_*` helpers, lib.rs 63-85). -/
inductive CoreError where
  | Unauthorized
  | InsufficientBalance
  | InactiveCommitment
  | TransferFailed
  | AlreadyInitialized
  | InvalidAmount
deriving Repr, DecidableEq

/-- Association-list lookup, modelling a keyed soroban storage read. -/
def lookupAssoc {α β : Type} [DecidableEq α] : List (α × β) → α → Option β
  | [], _ => none
  | (k, v) :: t, a => if k = a then some v else lookupAssoc t a

/-- Association-list update, modelling a keyed soroban storage write. -/
def setAssoc {α β : Type} [DecidableEq α] : List (α × β) → α → β → List (α × β)
  | [], a, b => [(a, b)]
  | (k, v) :: t, a, b => if k = a then (a, b) :: t else (k, v) :: setAssoc t a b

/-- The contract's storage: one component per `DataKey` variant
(lib.rs 53-60).  `admin` is `DataKey::Admin`, `init_flag` is
`DataKey::InitFlag`, and each list is the family of keyed entries. -/
structure State where
  admin : Option Nat
  init_flag : Option Bool
  allocators : List (Nat × Bool)
  commitments : List (String × Commitment)
  balances : List (String × Int)
  tracking : List (String × AllocationTracking)
deriving Repr, DecidableEq

/-- The empty storage of a freshly deployed contract. -/
def State.empty : State :=
  { admin := none, init_flag := none, allocators := [], commitments := [],
    balances := [], tracking := [] }

/-- `is_authorized_allocator` helper (lib.rs 103-110): the stored flag for
the address, `false` when absent. -/
def is_authorized_allocator (s : State) (allocator : Nat) : Bool :=
  match lookupAssoc s.allocators allocator with
  | some b => b
  | none => false

/-- `get_commitment` helper (lib.rs 117-120): persistent read, `None`
for an unknown id. -/
def get_commitment (s : State) (commitment_id : String) : Option Commitment :=
  lookupAssoc s.commitments commitment_id

/-- `get_commitment_balance` helper (lib.rs 127-130): stored custody
balance, defaulting to `0` when absent. -/
def get_commitment_balance (s : State) (commitment_id : String) : Int :=
  (lookupAssoc s.balances commitment_id).getD 0

/-- `get_allocation_tracking` helper (lib.rs 137-143): stored tracking,
defaulting to total `0` with empty history. -/
def get_allocation_tracking (s : State) (commitment_id : String) : AllocationTracking :=
  (lookupAssoc s.tracking commitment_id).getD { total_allocated := 0, allocations := [] }

/-- `is_initialized` helper (lib.rs 150-157). -/
def is_initialized (s : State) : Bool :=
  match s.init_flag with
  | some b => b
  | none => false

/-- `transfer_asset` helper (lib.rs 165-183): panics `InvalidAmount` when
`amount ≤ 0`, then invokes the external token contract, assumed atomic
and successful (out of scope per the spec). -/
def transfer_asset (amount : Int) : Except CoreError Unit :=
  if amount ≤ 0 then .error .InvalidAmount else .ok ()

/-- `initialize` entry point (lib.rs 191-198; the implemented version —
a later TODO stub of the same name does nothing).  Named
`initialize_core` in this development. -/
def initialize_core (s : State) (admin : Nat) : Except CoreError State :=
  if is_initialized s then .error .AlreadyInitialized
  else .ok { s with admin := some admin, init_flag := some true }

/-- `add_authorized_allocator` entry point (lib.rs 201-206); admin
authentication is host-side (`require_auth`) and not modelled. -/
def add_authorized_allocator (s : State) (allocator : Nat) : Except CoreError State :=
  .ok { s with allocators := setAssoc s.allocators allocator true }

/-- `remove_authorized_allocator` entry point (lib.rs 209-214). -/
def remove_authorized_allocator (s : State) (allocator : Nat) : Except CoreError State :=
  .ok { s with allocators := setAssoc s.allocators allocator false }

/-- `create_commitment` entry point (lib.rs 225-238): a TODO stub that
validates nothing, stores nothing, and returns the constant placeholder
id. -/
def create_commitment (s : State) (_owner : Nat) (_amount : Int)
    (_asset_address : Nat) (_rules : CommitmentRules) :
    Except CoreError (State × String) :=
  .ok (s, "commitment_id_placeholder")

/-- `update_value` entry point (lib.rs 268-273): a TODO stub, no effect. -/
def update_value (s : State) (_commitment_id : String) (_new_value : Int) :
    Except CoreError State :=
  .ok s

/-- `check_violations` entry point (lib.rs 276-281): a TODO stub that
returns `false` unconditionally. -/
def check_violations (_s : State) (_commitment_id : String) : Bool :=
  false

/-- `settle` entry point (lib.rs 284-291): a TODO stub, always succeeds
with no state change. -/
def settle (s : State) (_commitment_id : String) : Except CoreError State :=
  .ok s

/-- `early_exit` entry point (lib.rs 294-300): a TODO stub, no effect. -/
def early_exit (s : State) (_commitment_id : String) (_caller : Nat) :
    Except CoreError State :=
  .ok s

/-- `allocate` entry point (lib.rs 320-384; the implemented version — a
later TODO stub of the same name does nothing).  Guards in source order:
caller authorization, commitment existence, active status, custody
balance, then `transfer_asset` (which rejects `amount ≤ 0`), then the
balance write, the appended allocation record and the tracking update. -/
def allocate (s : State) (caller : Nat) (commitment_id : String)
    (target_pool : Nat) (amount : Int) (timestamp : Nat) :
    Except CoreError State :=
  if is_authorized_allocator s caller = false then .error .Unauthorized
  else
    match get_commitment s commitment_id with
    | none => .error .InactiveCommitment
    | some commitment =>
      if commitment.status ≠ "active" then .error .InactiveCommitment
      else
        let balance := get_commitment_balance s commitment_id
        if balance < amount then .error .InsufficientBalance
        else
          match transfer_asset amount with
          | .error err => .error err
          | .ok _ =>
            let new_balance := balance - amount
            let s1 : State := { s with balances := setAssoc s.balances commitment_id new_balance }
            let tracking := get_allocation_tracking s1 commitment_id
            let allocation : Allocation :=
              { commitment_id := commitment_id, target_pool := target_pool,
                amount := amount, timestamp := timestamp }
            let tracking1 : AllocationTracking :=
              { total_allocated := tracking.total_allocated + amount,
                allocations := tracking.allocations ++ [allocation] }
            .ok { s1 with tracking := setAssoc s1.tracking commitment_id tracking1 }

/-- `deallocate` entry point (lib.rs 399-439): authorization, existence
(`InactiveCommitment` only for an unknown id — no status check), then
`transfer_asset` (rejects `amount ≤ 0`), balance increment, and the
tracking decrement clamped at zero. -/
def deallocate (s : State) (caller : Nat) (commitment_id : String)
    (_target_pool : Nat) (amount : Int) : Except CoreError State :=
  if is_authorized_allocator s caller = false then .error .Unauthorized
  else
    match get_commitment s commitment_id with
    | none => .error .InactiveCommitment
    | some _commitment =>
      match transfer_asset amount with
      | .error err => .error err
      | .ok _ =>
        let balance := get_commitment_balance s commitment_id
        let s1 : State := { s with balances := setAssoc s.balances commitment_id (balance + amount) }
        let tracking := get_allocation_tracking s1 commitment_id
        let t := tracking.total_allocated - amount
        let t1 := if t < 0 then 0 else t
        let tracking1 : AllocationTracking := { tracking with total_allocated := t1 }
        .ok { s1 with tracking := setAssoc s1.tracking commitment_id tracking1 }

/-- One externally invoked operation, for reasoning about sequences of
public calls. -/
inductive Op where
  | init (admin : Nat)
  | addAlloc (allocator : Nat)
  | removeAlloc (allocator : Nat)
  | create (owner : Nat) (amount : Int) (asset : Nat) (rules : CommitmentRules)
  | updateValue (id : String) (v : Int)
  | settleOp (id : String)
  | earlyExit (id : String) (caller : Nat)
  | alloc (caller : Nat) (id : String) (pool : Nat) (amount : Int) (ts : Nat)
  | dealloc (caller : Nat) (id : String) (pool : Nat) (amount : Int)

/-- Host semantics of one invocation: on success the new state, on a
panic the invocation is rolled back and the state is unchanged. -/
def step (s : State) : Op → State
  | .init a => match initialize_core s a with | .ok s1 => s1 | .error _ => s
  | .addAlloc a => match add_authorized_allocator s a with | .ok s1 => s1 | .error _ => s
  | .removeAlloc a => match remove_authorized_allocator s a with | .ok s1 => s1 | .error _ => s
  | .create o a asset r => match create_commitment s o a asset r with | .ok p => p.1 | .error _ => s
  | .updateValue id v => match update_value s id v with | .ok s1 => s1 | .error _ => s
  | .settleOp id => match settle s id with | .ok s1 => s1 | .error _ => s
  | .earlyExit id c => match early_exit s id c with | .ok s1 => s1 | .error _ => s
  | .alloc c id p a ts => match allocate s c id p a ts with | .ok s1 => s1 | .error _ => s
  | .dealloc c id p a => match deallocate s c id p a with | .ok s1 => s1 | .error _ => s

/-- Running a sequence of public invocations. -/
def run (s : State) : List Op → State
  | [] => s
  | op :: rest => run (step s op) rest

/-! ## Concrete states used by counterexamples and witnesses -/

/-- Example rule set (the spec's §8 example: 30 days, 10% max loss,
balanced). -/
def rulesEx : CommitmentRules :=
  { duration_days := 30, max_loss_percent := 10, commitment_type := "balanced",
    early_exit_penalty := 5, min_fee_threshold := 0 }

/-- An active commitment with principal 1000 and current value 850
(a 15% loss, past the 10% limit). -/
def cmtActive : Commitment :=
  { commitment_id := "c1", owner := 1, nft_token_id := 1, rules := rulesEx,
    amount := 1000, asset_address := 2, created_at := 0, expires_at := 2592000,
    current_value := 850, status := "active" }

/-- Initialized state holding `cmtActive`, with address 7 registered as an
allocator, no custody balance and no allocations yet. -/
def sAuthActive : State :=
  { admin := some 0, init_flag := some true, allocators := [(7, true)],
    commitments := [("c1", cmtActive)], balances := [], tracking := [] }

/-- The same commitment already settled. -/
def cmtSettled : Commitment :=
  { cmtActive with status := "settled" }

/-- Initialized state holding the settled commitment. -/
def sSettled : State :=
  { admin := some 0, init_flag := some true, allocators := [(7, true)],
    commitments := [("c1", cmtSettled)], balances := [], tracking := [] }

/-- An active commitment with a tiny principal of 5. -/
def cmtSmall : Commitment :=
  { cmtActive with amount := 5, current_value := 5 }

/-- Initialized state holding the tiny commitment. -/
def sSmall : State :=
  { admin := some 0, init_flag := some true, allocators := [(7, true)],
    commitments := [("c1", cmtSmall)], balances := [], tracking := [] }

/-- `sSmall` after a deallocation of 1000 into custody followed by an
allocation of 1000 out again. -/
def sSmallAfter : State :=
  step (step sSmall (.dealloc 7 "c1" 9 1000)) (.alloc 7 "c1" 9 1000 0)

/-- `sAuthActive` with a custody balance of 600 already deposited for
`c1`. -/
def sFunded : State :=
  { sAuthActive with balances := [("c1", 600)] }

/-! ## Lookup/update lemmas for the storage model -/

theorem lookupAssoc_setAssoc_self {α β : Type} [DecidableEq α]
    (l : List (α × β)) (a : α) (b : β) :
    lookupAssoc (setAssoc l a b) a = some b := by
  induction l with
  | nil => simp [setAssoc, lookupAssoc]
  | cons hd t ih =>
    obtain ⟨k, v⟩ := hd
    by_cases hk : k = a
    · subst hk
      simp [setAssoc, lookupAssoc]
    · simp [setAssoc, lookupAssoc, hk, ih]

theorem lookupAssoc_setAssoc_ne {α β : Type} [DecidableEq α]
    (l : List (α × β)) (a : α) (b : β) (a2 : α) (h : a ≠ a2) :
    lookupAssoc (setAssoc l a b) a2 = lookupAssoc l a2 := by
  induction l with
  | nil => simp [setAssoc, lookupAssoc, h]
  | cons hd t ih =>
    obtain ⟨k, v⟩ := hd
    by_cases hk : k = a
    · subst hk
      simp [setAssoc, lookupAssoc, h]
    · simp [setAssoc, lookupAssoc, hk, ih]

/-! ## Inversion lemmas for the implemented operations -/

/-- What a successful `allocate` did: the guards it passed and the exact
storage it wrote. -/
theorem allocate_ok_inv (s : State) (caller : Nat) (id : String) (pool : Nat)
    (a : Int) (ts : Nat) (s1 : State)
    (h : allocate s caller id pool a ts = .ok s1) :
    0 < a ∧ a ≤ get_commitment_balance s id ∧
    s1.admin = s.admin ∧ s1.init_flag = s.init_flag ∧
    s1.allocators = s.allocators ∧ s1.commitments = s.commitments ∧
    s1.balances = setAssoc s.balances id (get_commitment_balance s id - a) ∧
    s1.tracking = setAssoc s.tracking id
      { total_allocated := (get_allocation_tracking s id).total_allocated + a,
        allocations := (get_allocation_tracking s id).allocations ++
          [{ commitment_id := id, target_pool := pool, amount := a, timestamp := ts }] } := by
  simp only [allocate, transfer_asset] at h
  split at h
  · exact Except.noConfusion h
  · split at h
    · exact Except.noConfusion h
    · split at h
      · exact Except.noConfusion h
      · split at h
        · exact Except.noConfusion h
        · split at h
          · exact Except.noConfusion h
          · rename_i hbal hmatch u heq
            split at heq
            · exact Except.noConfusion heq
            · rename_i hle
              injection h with h1
              subst h1
              refine ⟨by omega, by omega, rfl, rfl, rfl, rfl, rfl, rfl⟩

/-- What a successful `deallocate` did. -/
theorem deallocate_ok_inv (s : State) (caller : Nat) (id : String) (pool : Nat)
    (a : Int) (s1 : State)
    (h : deallocate s caller id pool a = .ok s1) :
    0 < a ∧
    s1.admin = s.admin ∧ s1.init_flag = s.init_flag ∧
    s1.allocators = s.allocators ∧ s1.commitments = s.commitments ∧
    s1.balances = setAssoc s.balances id (get_commitment_balance s id + a) ∧
    s1.tracking = setAssoc s.tracking id
      { get_allocation_tracking s id with
        total_allocated :=
          if (get_allocation_tracking s id).total_allocated - a < 0 then 0
          else (get_allocation_tracking s id).total_allocated - a } := by
  simp only [deallocate, transfer_asset] at h
  split at h
  · exact Except.noConfusion h
  · split at h
    · exact Except.noConfusion h
    · split at h
      · exact Except.noConfusion h
      · rename_i u heq
        split at heq
        · exact Except.noConfusion heq
        · rename_i hle
          injection h with h1
          subst h1
          refine ⟨by omega, rfl, rfl, rfl, rfl, rfl, rfl⟩

/-! ## Invariants over sequences of public invocations -/

/-- Per-commitment `total_allocated` is non-negative everywhere. -/
def TotalsNonneg (s : State) : Prop :=
  ∀ id : String, 0 ≤ (get_allocation_tracking s id).total_allocated

/-- Per-commitment custody balance is non-negative everywhere. -/
def BalancesNonneg (s : State) : Prop :=
  ∀ id : String, 0 ≤ get_commitment_balance s id

theorem totals_step (s : State) (op : Op) (h : TotalsNonneg s) :
    TotalsNonneg (step s op) := by
  cases op with
  | init a =>
    intro id
    by_cases hini : is_initialized s = true
    · simpa [step, initialize_core, hini] using h id
    · simpa [step, initialize_core, hini] using h id
  | addAlloc a => exact h
  | removeAlloc a => exact h
  | create o a asset r => exact h
  | updateValue id v => exact h
  | settleOp id => exact h
  | earlyExit id c => exact h
  | alloc c id p a ts =>
    cases h2 : allocate s c id p a ts with
    | error e =>
      intro id2
      simpa [step, h2] using h id2
    | ok s1 =>
      obtain ⟨hpos, hle, -, -, -, -, -, htr⟩ := allocate_ok_inv _ _ _ _ _ _ _ h2
      intro id2
      simp only [step, h2]
      unfold get_allocation_tracking
      rw [htr]
      by_cases hid : id = id2
      · subst hid
        rw [lookupAssoc_setAssoc_self]
        have h1 := h id
        simp only [Option.getD_some]
        omega
      · rw [lookupAssoc_setAssoc_ne _ _ _ _ hid]
        exact h id2
  | dealloc c id p a =>
    cases h2 : deallocate s c id p a with
    | error e =>
      intro id2
      simpa [step, h2] using h id2
    | ok s1 =>
      obtain ⟨hpos, -, -, -, -, -, htr⟩ := deallocate_ok_inv _ _ _ _ _ _ h2
      intro id2
      simp only [step, h2]
      unfold get_allocation_tracking
      rw [htr]
      by_cases hid : id = id2
      · subst hid
        rw [lookupAssoc_setAssoc_self]
        simp only [Option.getD_some]
        split
        · exact le_refl 0
        · omega
      · rw [lookupAssoc_setAssoc_ne _ _ _ _ hid]
        exact h id2

theorem balances_step (s : State) (op : Op) (h : BalancesNonneg s) :
    BalancesNonneg (step s op) := by
  cases op with
  | init a =>
    intro id
    by_cases hini : is_initialized s = true
    · simpa [step, initialize_core, hini] using h id
    · simpa [step, initialize_core, hini] using h id
  | addAlloc a => exact h
  | removeAlloc a => exact h
  | create o a asset r => exact h
  | updateValue id v => exact h
  | settleOp id => exact h
  | earlyExit id c => exact h
  | alloc c id p a ts =>
    cases h2 : allocate s c id p a ts with
    | error e =>
      intro id2
      simpa [step, h2] using h id2
    | ok s1 =>
      obtain ⟨hpos, hle, -, -, -, -, hbal, -⟩ := allocate_ok_inv _ _ _ _ _ _ _ h2
      intro id2
      simp only [step, h2]
      unfold get_commitment_balance
      rw [hbal]
      by_cases hid : id = id2
      · subst hid
        rw [lookupAssoc_setAssoc_self]
        simp only [Option.getD_some]
        omega
      · rw [lookupAssoc_setAssoc_ne _ _ _ _ hid]
        exact h id2
  | dealloc c id p a =>
    cases h2 : deallocate s c id p a with
    | error e =>
      intro id2
      simpa [step, h2] using h id2
    | ok s1 =>
      obtain ⟨hpos, -, -, -, -, hbal, -⟩ := deallocate_ok_inv _ _ _ _ _ _ h2
      intro id2
      simp only [step, h2]
      unfold get_commitment_balance
      rw [hbal]
      by_cases hid : id = id2
      · subst hid
        rw [lookupAssoc_setAssoc_self]
        have h1 := h id
        simp only [Option.getD_some]
        omega
      · rw [lookupAssoc_setAssoc_ne _ _ _ _ hid]
        exact h id2

/-- Updating the balances component leaves allocation tracking reads
unchanged. -/
theorem get_allocation_tracking_balances_update (s : State)
    (bs : List (String × Int)) (id : String) :
    get_allocation_tracking { s with balances := bs } id =
      get_allocation_tracking s id := rfl

/-! ## Claims -/

/-- C1 (counterexample).  The claim says `allocate` checks the available
balance "principal minus current total-allocated" and that total-allocated
never exceeds the principal.  Both parts fail on the code: (i) with
principal 1000 and nothing allocated (available 1000 ≥ 100), `allocate`
of 100 still fails with `InsufficientBalance`, because the code checks the
separately stored custody balance (which is 0); (ii) after deallocating
1000 into custody and allocating it out again, `total_allocated` is 1000
while the commitment's principal is 5. -/
theorem allocate_balance_not_principal_cex :
    (cmtActive.amount - (get_allocation_tracking sAuthActive "c1").total_allocated = 1000 ∧
      allocate sAuthActive 7 "c1" 9 100 0 = .error .InsufficientBalance) ∧
    (cmtSmall.amount = 5 ∧
      (get_allocation_tracking sSmallAfter "c1").total_allocated = 1000) := by
  refine ⟨⟨?_, ?_⟩, ?_, ?_⟩ <;> rfl

/-- C1 (amended).  For an authorized caller and an existing active
commitment, `allocate` compares `amount` against the stored custody
balance (`CommitmentBalance`, default 0), not against principal minus
total-allocated: it fails with `InsufficientBalance` exactly when the
custody balance is below `amount`, and otherwise (for positive `amount`)
succeeds, decrementing the custody balance and incrementing
`total_allocated` by `amount`. -/
theorem allocate_guard_is_custody_balance (s : State) (caller : Nat) (id : String)
    (pool : Nat) (a : Int) (ts : Nat) (c : Commitment)
    (hauth : is_authorized_allocator s caller = true)
    (hc : get_commitment s id = some c)
    (hact : c.status = "active") :
    (get_commitment_balance s id < a →
      allocate s caller id pool a ts = .error .InsufficientBalance) ∧
    (a ≤ get_commitment_balance s id → 0 < a →
      allocate s caller id pool a ts = .ok { s with
        balances := setAssoc s.balances id (get_commitment_balance s id - a),
        tracking := setAssoc s.tracking id
          { total_allocated := (get_allocation_tracking s id).total_allocated + a,
            allocations := (get_allocation_tracking s id).allocations ++
              [{ commitment_id := id, target_pool := pool, amount := a, timestamp := ts }] } }) := by
  constructor
  · intro hlt
    simp [allocate, hauth, hc, hact, hlt]
  · intro hge hpos
    have hnlt : ¬ (get_commitment_balance s id < a) := by omega
    have hnle : ¬ (a ≤ 0) := by omega
    simp [allocate, hauth, hc, hact, hnlt, transfer_asset, hnle,
      get_allocation_tracking_balances_update]

/-- C1 witness: on `sFunded` (custody balance 600 for `c1`) an allocation
of 50 passes the guard and moves 50 from custody into `total_allocated`. -/
theorem allocate_guard_is_custody_balance_witness :
    allocate sFunded 7 "c1" 9 50 0 = .ok { sFunded with
      balances := setAssoc sFunded.balances "c1" (get_commitment_balance sFunded "c1" - 50),
      tracking := setAssoc sFunded.tracking "c1"
        { total_allocated := (get_allocation_tracking sFunded "c1").total_allocated + 50,
          allocations := (get_allocation_tracking sFunded "c1").allocations ++
            [{ commitment_id := "c1", target_pool := 9, amount := 50, timestamp := 0 }] } } :=
  (allocate_guard_is_custody_balance sFunded 7 "c1" 9 50 0 cmtActive rfl rfl rfl).2
    (by decide) (by decide)

/-- C2 (code bug).  `check_violations` is a TODO stub returning `false`
unconditionally.  On an active commitment with principal 1000, current
value 850 and `max_loss_percent` 10, the loss percent is 15 > 10 and the
claim (and the repository's own tests) require `true`; the code returns
`false`. -/
theorem check_violations_stub_false_at_loss :
    check_violations sAuthActive "c1" = false ∧
    get_commitment sAuthActive "c1" = some cmtActive ∧
    cmtActive.status = "active" ∧
    cmtActive.amount = 1000 ∧
    cmtActive.current_value = 850 ∧
    cmtActive.rules.max_loss_percent = 10 ∧
    (cmtActive.amount - cmtActive.current_value) * 100 / cmtActive.amount = 15 := by
  refine ⟨?_, ?_, ?_, ?_, ?_, ?_, ?_⟩ <;> rfl

/-- C3 (code bug).  `settle` is a TODO stub: it always succeeds and never
writes anything.  A second settle on an already-settled commitment
succeeds instead of failing with `AlreadySettled`, and a settle on an
active unexpired commitment succeeds with the status left `"active"`
instead of failing with `NotYetExpired` or becoming `"settled"`. -/
theorem settle_stub_noop :
    settle sSettled "c1" = .ok sSettled ∧
    get_commitment sSettled "c1" = some cmtSettled ∧
    cmtSettled.status = "settled" ∧
    settle sAuthActive "c1" = .ok sAuthActive ∧
    (get_commitment sAuthActive "c1").map Commitment.status = some "active" := by
  refine ⟨?_, ?_, ?_, ?_, ?_⟩ <;> rfl

/-- C4 (code bug).  `create_commitment` is a TODO stub: for a perfectly
valid creation it stores nothing and returns the constant placeholder id,
and `get_commitment` on that id returns `none` instead of a record with
status `"active"`, `current_value = amount` and the computed expiry. -/
theorem create_commitment_stub_stores_nothing :
    create_commitment State.empty 1 1000 2 rulesEx =
      .ok (State.empty, "commitment_id_placeholder") ∧
    get_commitment State.empty "commitment_id_placeholder" = none := by
  refine ⟨?_, ?_⟩ <;> rfl

/-- Rules that violate every validation condition of the claim. -/
def rulesBad : CommitmentRules :=
  { duration_days := 0, max_loss_percent := 200, commitment_type := "bogus",
    early_exit_penalty := 5, min_fee_threshold := 0 }

/-- C5 (code bug).  `create_commitment` performs no validation: a zero
amount, a negative amount, and rules with `max_loss_percent = 200`,
`duration_days = 0` and an unknown commitment type are all accepted
instead of failing with `InvalidAmount` / `InvalidRules`. -/
theorem create_commitment_stub_no_validation :
    create_commitment State.empty 1 0 2 rulesEx =
      .ok (State.empty, "commitment_id_placeholder") ∧
    create_commitment State.empty 1 (-5) 2 rulesEx =
      .ok (State.empty, "commitment_id_placeholder") ∧
    create_commitment State.empty 1 1000 2 rulesBad =
      .ok (State.empty, "commitment_id_placeholder") := by
  refine ⟨?_, ?_, ?_⟩ <;> rfl

/-- C6.  For every starting state whose per-commitment totals are
non-negative and every sequence of public invocations (allocate and
deallocate included), every commitment's `total_allocated` stays
non-negative: deallocation clamps at zero and allocation only ever adds
a positive amount. -/
theorem total_allocated_never_negative (s : State) (ops : List Op)
    (h : TotalsNonneg s) : TotalsNonneg (run s ops) := by
  induction ops generalizing s with
  | nil => exact h
  | cons op rest ih => exact ih (step s op) (totals_step s op h)

/-- C6 witness: from the empty state, initialize, authorize, deallocate 5
and allocate 5 — totals stay non-negative. -/
theorem total_allocated_never_negative_witness :
    TotalsNonneg (run State.empty
      [Op.init 0, Op.addAlloc 7, Op.dealloc 7 "c1" 9 5, Op.alloc 7 "c1" 9 5 0]) :=
  total_allocated_never_negative State.empty
    [Op.init 0, Op.addAlloc 7, Op.dealloc 7 "c1" 9 5, Op.alloc 7 "c1" 9 5 0]
    (fun _ => le_refl 0)

/-- C7.  An unauthorized caller makes `allocate` fail with `Unauthorized`,
and the invocation leaves the state (total-allocated, allocation history
and custody balance included) exactly as it was. -/
theorem allocate_unauthorized_rejected (s : State) (caller : Nat) (id : String)
    (pool : Nat) (a : Int) (ts : Nat)
    (h : is_authorized_allocator s caller = false) :
    allocate s caller id pool a ts = .error .Unauthorized ∧
    step s (.alloc caller id pool a ts) = s := by
  have h1 : allocate s caller id pool a ts = .error .Unauthorized := by
    simp [allocate, h]
  exact ⟨h1, by simp [step, h1]⟩

/-- C7 witness: the spec's scenario — commitment with principal 1000,
status active, total-allocated 0, and the unregistered caller 8. -/
theorem allocate_unauthorized_rejected_witness :
    allocate sAuthActive 8 "c1" 9 100 0 = .error .Unauthorized ∧
    step sAuthActive (.alloc 8 "c1" 9 100 0) = sAuthActive :=
  allocate_unauthorized_rejected sAuthActive 8 "c1" 9 100 0 rfl

/-- C8.  On an uninitialized state, `initialize` succeeds and stores the
admin; on the resulting state every further `initialize` fails with
`AlreadyInitialized` and, the invocation being rolled back, leaves the
stored admin unchanged. -/
theorem initialize_core_sets_admin_once (s : State) (a a2 : Nat)
    (h : is_initialized s = false) :
    initialize_core s a = .ok { s with admin := some a, init_flag := some true } ∧
    ({ s with admin := some a, init_flag := some true } : State).admin = some a ∧
    initialize_core { s with admin := some a, init_flag := some true } a2 =
      .error .AlreadyInitialized ∧
    step { s with admin := some a, init_flag := some true } (.init a2) =
      { s with admin := some a, init_flag := some true } := by
  refine ⟨by simp [initialize_core, h], rfl, by simp [initialize_core, is_initialized], ?_⟩
  simp [step, initialize_core, is_initialized]

/-- C8 witness: first call on the empty state with admin 1, second call
with admin 2. -/
theorem initialize_core_sets_admin_once_witness :
    initialize_core State.empty 1 =
      .ok { State.empty with admin := some 1, init_flag := some true } ∧
    ({ State.empty with admin := some 1, init_flag := some true } : State).admin = some 1 ∧
    initialize_core { State.empty with admin := some 1, init_flag := some true } 2 =
      .error .AlreadyInitialized ∧
    step { State.empty with admin := some 1, init_flag := some true } (.init 2) =
      { State.empty with admin := some 1, init_flag := some true } :=
  initialize_core_sets_admin_once State.empty 1 2 rfl

/-- C9.  For every starting state whose custody balances are non-negative
and every sequence of public invocations, every commitment's stored
custody balance (`CommitmentBalance`, default 0) stays non-negative:
`allocate` subtracts only after checking `balance ≥ amount` (and
`transfer_asset` rejects `amount ≤ 0`), `deallocate` only adds amounts
`transfer_asset` checked positive. -/
theorem commitment_balance_never_negative (s : State) (ops : List Op)
    (h : BalancesNonneg s) : BalancesNonneg (run s ops) := by
  induction ops generalizing s with
  | nil => exact h
  | cons op rest ih => exact ih (step s op) (balances_step s op h)

/-- C9 witness: the same concrete run as allocation, balances stay
non-negative. -/
theorem commitment_balance_never_negative_witness :
    BalancesNonneg (run State.empty
      [Op.init 0, Op.addAlloc 7, Op.dealloc 7 "c1" 9 5, Op.alloc 7 "c1" 9 5 0]) :=
  commitment_balance_never_negative State.empty
    [Op.init 0, Op.addAlloc 7, Op.dealloc 7 "c1" 9 5, Op.alloc 7 "c1" 9 5 0]
    (fun _ => le_refl 0)

/-- C10.  `deallocate` never looks at the commitment's status: for an
authorized caller, any existing commitment (whatever its status) and a
positive amount it succeeds, crediting the custody balance and
decrementing `total_allocated` with the zero clamp. -/
theorem deallocate_ignores_status (s : State) (caller : Nat) (id : String)
    (pool : Nat) (a : Int) (c : Commitment)
    (hauth : is_authorized_allocator s caller = true)
    (hc : get_commitment s id = some c)
    (ha : 0 < a) :
    deallocate s caller id pool a = .ok { s with
      balances := setAssoc s.balances id (get_commitment_balance s id + a),
      tracking := setAssoc s.tracking id
        { get_allocation_tracking s id with
          total_allocated :=
            if (get_allocation_tracking s id).total_allocated - a < 0 then 0
            else (get_allocation_tracking s id).total_allocated - a } } := by
  have hnle : ¬ (a ≤ 0) := by omega
  simp [deallocate, hauth, hc, transfer_asset, hnle,
    get_allocation_tracking_balances_update]

/-- C10 witness: a deallocation of 50 on a commitment whose status is
`"settled"` still proceeds. -/
theorem deallocate_ignores_status_witness :
    deallocate sSettled 7 "c1" 9 50 = .ok { sSettled with
      balances := setAssoc sSettled.balances "c1" (get_commitment_balance sSettled "c1" + 50),
      tracking := setAssoc sSettled.tracking "c1"
        { get_allocation_tracking sSettled "c1" with
          total_allocated :=
            if (get_allocation_tracking sSettled "c1").total_allocated - 50 < 0 then 0
            else (get_allocation_tracking sSettled "c1").total_allocated - 50 } } :=
  deallocate_ignores_status sSettled 7 "c1" 9 50 cmtSettled rfl rfl (by decide)
